import Mathlib

/-!
# Viewer construction (robots-viz, `src/Viewer/src/Viewer.cpp`)

A shallow embedding of `Viewer::Viewer(const ResourceFinder&)` and `Viewer::run()`.

The constructor reads a configuration, validates it, selects a camera, wraps it in a
point-cloud renderer and registers that renderer with a rendering container.  The
configuration classes (`ResourceFinder`, `Bottle`, `Value`) and the constructed classes
(`YarpCamera`, `RealsenseCameraYarp`, `VtkPointCloud`, `VtkContainer`) are declared in
headers that are not among the sources; they are modelled here by the data the constructor
reads from them and by the arguments it hands to them.
-/

namespace RobotsViz

/-! ## Configuration values -/

/-- Modelled from the spec: the `float64` type of configuration scalars (a C++ `double`,
declared outside this repository).  A finite double is carried as the rational number it
denotes; the two infinities and NaN are separate values.  The sign of zero and rounding are
not tracked: the constructor never rounds (it forwards doubles unchanged, converts integers,
tests against zero and divides `1.0` by `0.0` or `1.0` only). -/
inductive Float64 where
  | finite (q : ℚ)
  | posInf
  | negInf
  | nan
  deriving DecidableEq

namespace Float64

/-- Conversion `double -> bool` of C++: every value other than zero is `true`
(the infinities and NaN included). -/
def toBool : Float64 → Bool
  | finite q => decide (q ≠ 0)
  | posInf => true
  | negInf => true
  | nan => true

/-- Promotion `bool -> double` of C++: `false` is `0.0`, `true` is `1.0`. -/
def ofBool (b : Bool) : Float64 :=
  if b then finite 1 else finite 0

/-- Conversion `int32 -> double`, which is exact. -/
def ofInt32 (i : Int) : Float64 :=
  finite i

/-- Conversion `double -> int32` by truncation towards zero.  (Out of range the C++
conversion is undefined; the constructor reads `asInt32` only from values that are int32.) -/
def toInt32 : Float64 → Int
  | finite q => Int.tdiv q.num q.den
  | posInf => 0
  | negInf => 0
  | nan => 0

/-- IEEE division on the denoted values: the exact quotient for a non-zero finite divisor,
an infinity (or NaN for `0/0`) for a zero divisor. -/
def div : Float64 → Float64 → Float64
  | nan, _ => nan
  | _, nan => nan
  | finite a, finite b =>
    if b = 0 then (if a = 0 then nan else if 0 < a then posInf else negInf)
    else finite (a / b)
  | finite _, posInf => finite 0
  | finite _, negInf => finite 0
  | posInf, finite b => if 0 ≤ b then posInf else negInf
  | negInf, finite b => if 0 ≤ b then negInf else posInf
  | posInf, posInf => nan
  | posInf, negInf => nan
  | negInf, posInf => nan
  | negInf, negInf => nan

end Float64

/-- Modelled from the spec: `yarp::os::Value` (declared outside this repository), a
configuration scalar that is missing (`null`) or has a type: int32, float64, string, or
some other kind (64-bit integer, vocabulary, list, blob, ...).  For a value of another kind
the results of the three conversions the constructor calls are carried as data, so nothing
is assumed about them. -/
inductive Value where
  | null
  | int32 (x : Int)
  | float64 (x : Float64)
  | string (s : String)
  | other (asInt32 : Int) (asFloat64 : Float64) (asString : String)
  deriving DecidableEq

namespace Value

/-- The library call `Value::isNull()`. -/
def isNull : Value → Bool
  | null => true
  | _ => false

/-- The library call `Value::isInt32()`. -/
def isInt32 : Value → Bool
  | int32 _ => true
  | _ => false

/-- The library call `Value::isFloat64()`. -/
def isFloat64 : Value → Bool
  | float64 _ => true
  | _ => false

/-- The library call `Value::asInt32()`: the integer, the truncated double, or `0` when
there is no number. -/
def asInt32 : Value → Int
  | null => 0
  | int32 x => x
  | float64 x => x.toInt32
  | string _ => 0
  | other i _ _ => i

/-- The library call `Value::asFloat64()`: the double, the converted integer, or `0.0`
when there is no number. -/
def asFloat64 : Value → Float64
  | null => Float64.finite 0
  | int32 x => Float64.ofInt32 x
  | float64 x => x
  | string _ => Float64.finite 0
  | other _ x _ => x

/-- The library call `Value::asString()`: the string, or the empty string when the value
is not a string. -/
def asString : Value → String
  | null => ""
  | int32 _ => ""
  | float64 _ => ""
  | string s => s
  | other _ _ s => s

end Value

/-- Modelled from the spec: `yarp::os::Bottle` (declared outside this repository) as the
constructor uses it, a section of the configuration: keys with their values, the first
occurrence of a key being the one that is found. -/
structure Bottle where
  pairs : List (String × Value)
  deriving DecidableEq

namespace Bottle

/-- The library call `Bottle::find(key)`: the value stored under `key`, the null value
when there is none. -/
def find (b : Bottle) (key : String) : Value :=
  match b.pairs.lookup key with
  | some v => v
  | none => Value.null

/-- The library call `Bottle::check(key, fallback)`: the value stored under `key` when the
key is there, `fallback` otherwise. -/
def check (b : Bottle) (key : String) (fallback : Value) : Value :=
  match b.pairs.lookup key with
  | some v => v
  | none => fallback

end Bottle

/-- Modelled from the spec: `yarp::os::ResourceFinder` (declared outside this repository)
as the constructor uses it: the top-level keys with their values, and the named sections. -/
structure ResourceFinder where
  pairs : List (String × Value)
  groups : List (String × Bottle)
  deriving DecidableEq

namespace ResourceFinder

/-- The library call `ResourceFinder::check(key, fallback)`. -/
def check (rf : ResourceFinder) (key : String) (fallback : Value) : Value :=
  match rf.pairs.lookup key with
  | some v => v
  | none => fallback

/-- The library call `ResourceFinder::findGroup(key)`: the section of that name; `none`
stands for the null bottle returned when there is no such section. -/
def findGroup (rf : ResourceFinder) (key : String) : Option Bottle :=
  rf.groups.lookup key

end ResourceFinder

/-! ## Constructed objects -/

/-- Modelled from the spec: the camera implementations `YarpCamera` and
`RealsenseCameraYarp` (declared outside this repository).  A camera is kept as the
constructor call that creates it, with its arguments in call order. -/
inductive Camera where
  | YarpCamera (a1 a2 : Int) (a3 a4 a5 a6 : Float64) (a7 : String) (a8 : Bool)
  | RealsenseCameraYarp (a1 : String)
  deriving DecidableEq

/-- Modelled from the spec: the point-cloud renderer `VtkPointCloud` (its declaration is not
among the sources), kept as the arguments of
`new VtkPointCloud(camera, far_plane, subsampling_radius)` in call order. -/
structure VtkPointCloud where
  camera : Camera
  far_plane : Float64
  subsampling_radius : Float64
  deriving DecidableEq

/-- Modelled from the spec: the rendering container `VtkContainer` (its declaration is not
among the sources), kept as the four arguments of `new VtkContainer(...)` in call order (the
period, the window width and height, a flag) and the content added to it so far, in the order
of the `add_content` calls. -/
structure VtkContainer where
  period : Float64
  width : Int
  height : Int
  flag : Bool
  contents : List (String × VtkPointCloud)
  deriving DecidableEq

/-- Modelled from the spec: the library call `VtkContainer::add_content(name, content)`,
which registers a content under a name. -/
def VtkContainer.add_content (c : VtkContainer) (name : String) (content : VtkPointCloud) :
    VtkContainer :=
  { c with contents := c.contents ++ [(name, content)] }

/-- Modelled from the spec: the class `Viewer` (declared in `Viewer.h`, which is not among
the sources): its only data member is the owned rendering container. -/
structure Viewer where
  vtk_container_ : VtkContainer
  deriving DecidableEq

/-- A call into the collaborating libraries. -/
inductive Call where
  | newCamera (camera : Camera)
  | newVtkPointCloud (pc : VtkPointCloud)
  | newVtkContainer (c : VtkContainer)
  | add_content (name : String) (pc : VtkPointCloud)
  | run (c : VtkContainer)
  deriving DecidableEq

/-- What a run of the constructor leaves behind: the library calls it made, in order, and
either the constructed viewer or the message of the `std::runtime_error` it threw. -/
structure Construction where
  calls : List Call
  result : Except String Viewer

/-! ## The constructor -/

/-- The constructor `Viewer::Viewer(const ResourceFinder&)`, lines 22-83.  The member
`log_name_` is declared in `Viewer.h`, which is not among the sources, and is a parameter.
The result records the library calls made, in order, next to the viewer or the thrown
message. -/
def Viewer.ctor (log_name_ : String) (resource_finder : ResourceFinder) : Construction :=
  let port_prefix : String := "robots-viz-viewer"
  let fps : Bool :=
    (resource_finder.check "fps" (Value.float64 (Float64.finite 30))).asFloat64.toBool
  match resource_finder.findGroup "CAMERA" with
  | none =>
    ⟨[], Except.error
      (log_name_ ++ "::ctor. Malformed configuration file: cannot find CAMERA section.")⟩
  | some camera_bottle =>
    let camera_source : String := (camera_bottle.check "source" (Value.string "YARP")).asString
    let camera_width := camera_bottle.find "width"
    let camera_height := camera_bottle.find "height"
    let camera_fx := camera_bottle.find "fx"
    let camera_fy := camera_bottle.find "fy"
    let camera_cx := camera_bottle.find "cx"
    let camera_cy := camera_bottle.find "cy"
    let valid_camera_values : Bool := !camera_width.isNull && camera_width.isInt32
    let valid_camera_values :=
      valid_camera_values && (!camera_height.isNull && camera_height.isInt32)
    let valid_camera_values := valid_camera_values && (!camera_fx.isNull && camera_fx.isFloat64)
    let valid_camera_values := valid_camera_values && (!camera_fy.isNull && camera_fy.isFloat64)
    let valid_camera_values := valid_camera_values && (!camera_cx.isNull && camera_cx.isFloat64)
    let valid_camera_values := valid_camera_values && (!camera_cy.isNull && camera_cy.isFloat64)
    let camera : Except String Camera :=
      if camera_source = "YARP" then
        if !valid_camera_values then
          Except.error (log_name_ ++ "::ctor. Camera parameters from configuration are invalid.")
        else
          Except.ok (Camera.YarpCamera camera_width.asInt32
                                       camera_height.asInt32
                                       camera_fx.asFloat64
                                       camera_cx.asFloat64
                                       camera_fy.asFloat64
                                       camera_cy.asFloat64
                                       port_prefix true)
      else if camera_source = "RealsenseCamera" then
        Except.ok (Camera.RealsenseCameraYarp port_prefix)
      else
        Except.error (log_name_ ++ "::ctor. Camera " ++ camera_source ++ " is not supported.")
    match camera with
    | Except.error what => ⟨[], Except.error what⟩
    | Except.ok camera =>
      let far_plane : Float64 :=
        (camera_bottle.check "far_plane" (Value.float64 (Float64.finite 10))).asFloat64
      let subsampling_radius : Float64 :=
        (camera_bottle.check "subsampling_radius" (Value.int32 (-1))).asFloat64
      let pc : VtkPointCloud := ⟨camera, far_plane, subsampling_radius⟩
      let container : VtkContainer :=
        ⟨Float64.div (Float64.finite 1) (Float64.ofBool fps), 600, 600, false, []⟩
      let vtk_container_ := container.add_content "point_cloud" pc
      ⟨[Call.newCamera camera, Call.newVtkPointCloud pc, Call.newVtkContainer container,
        Call.add_content "point_cloud" pc],
       Except.ok ⟨vtk_container_⟩⟩

/-- The method `Viewer::run()`: the library calls it makes. -/
def Viewer.run (v : Viewer) : List Call :=
  [Call.run v.vtk_container_]

/-! ## Expressions of the constructor, named for the statements below -/

/-- Line 31: the camera source the constructor branches on. -/
def camera_source (camera_bottle : Bottle) : String :=
  (camera_bottle.check "source" (Value.string "YARP")).asString

/-- Lines 40-45: the flag `valid_camera_values`. -/
def valid_camera_values (camera_bottle : Bottle) : Bool :=
  (!(camera_bottle.find "width").isNull && (camera_bottle.find "width").isInt32)
    && (!(camera_bottle.find "height").isNull && (camera_bottle.find "height").isInt32)
    && (!(camera_bottle.find "fx").isNull && (camera_bottle.find "fx").isFloat64)
    && (!(camera_bottle.find "fy").isNull && (camera_bottle.find "fy").isFloat64)
    && (!(camera_bottle.find "cx").isNull && (camera_bottle.find "cx").isFloat64)
    && (!(camera_bottle.find "cy").isNull && (camera_bottle.find "cy").isFloat64)

/-- Lines 55-61: the camera built for the source `YARP`. -/
def yarp_camera (camera_bottle : Bottle) : Camera :=
  Camera.YarpCamera (camera_bottle.find "width").asInt32 (camera_bottle.find "height").asInt32
    (camera_bottle.find "fx").asFloat64 (camera_bottle.find "cx").asFloat64
    (camera_bottle.find "fy").asFloat64 (camera_bottle.find "cy").asFloat64
    "robots-viz-viewer" true

/-- Line 25: the local `fps`, a `bool`. -/
def fps (resource_finder : ResourceFinder) : Bool :=
  (resource_finder.check "fps" (Value.float64 (Float64.finite 30))).asFloat64.toBool

/-- Line 75: the local `far_plane`. -/
def far_plane (camera_bottle : Bottle) : Float64 :=
  (camera_bottle.check "far_plane" (Value.float64 (Float64.finite 10))).asFloat64

/-- Line 76: the local `subsampling_radius`. -/
def subsampling_radius (camera_bottle : Bottle) : Float64 :=
  (camera_bottle.check "subsampling_radius" (Value.int32 (-1))).asFloat64

/-- Line 77: the point cloud built from a camera. -/
def point_cloud (camera_bottle : Bottle) (camera : Camera) : VtkPointCloud :=
  ⟨camera, far_plane camera_bottle, subsampling_radius camera_bottle⟩

/-- Line 79: the container as created, still empty. -/
def new_container (resource_finder : ResourceFinder) : VtkContainer :=
  ⟨Float64.div (Float64.finite 1) (Float64.ofBool (fps resource_finder)), 600, 600, false, []⟩

/-- Lines 74-82: the run of the constructor once a camera has been selected. -/
def assembled (resource_finder : ResourceFinder) (camera_bottle : Bottle) (camera : Camera) :
    Construction :=
  ⟨[Call.newCamera camera, Call.newVtkPointCloud (point_cloud camera_bottle camera),
    Call.newVtkContainer (new_container resource_finder),
    Call.add_content "point_cloud" (point_cloud camera_bottle camera)],
   Except.ok ⟨(new_container resource_finder).add_content "point_cloud"
                (point_cloud camera_bottle camera)⟩⟩

/-- The three messages of the constructor. -/
def missing_camera_message (log_name_ : String) : String :=
  log_name_ ++ "::ctor. Malformed configuration file: cannot find CAMERA section."

/-- Message thrown for the source `YARP` when `valid_camera_values` is false. -/
def invalid_parameters_message (log_name_ : String) : String :=
  log_name_ ++ "::ctor. Camera parameters from configuration are invalid."

/-- Message thrown for a source that is neither `YARP` nor `RealsenseCamera`. -/
def unsupported_camera_message (log_name_ camera_source : String) : String :=
  log_name_ ++ "::ctor. Camera " ++ camera_source ++ " is not supported."

/-! ## The configuration schema, in the words of the specification -/

/-- The value is present and of type int32. -/
def IsInt32 (v : Value) : Prop := ∃ i : Int, v = Value.int32 i

/-- The value is present and of type float64. -/
def IsFloat64 (v : Value) : Prop := ∃ x : Float64, v = Value.float64 x

instance (v : Value) : Decidable (IsInt32 v) :=
  match v with
  | Value.null => isFalse (fun ⟨_, h⟩ => by cases h)
  | Value.int32 x => isTrue ⟨x, rfl⟩
  | Value.float64 _ => isFalse (fun ⟨_, h⟩ => by cases h)
  | Value.string _ => isFalse (fun ⟨_, h⟩ => by cases h)
  | Value.other _ _ _ => isFalse (fun ⟨_, h⟩ => by cases h)

instance (v : Value) : Decidable (IsFloat64 v) :=
  match v with
  | Value.null => isFalse (fun ⟨_, h⟩ => by cases h)
  | Value.int32 _ => isFalse (fun ⟨_, h⟩ => by cases h)
  | Value.float64 x => isTrue ⟨x, rfl⟩
  | Value.string _ => isFalse (fun ⟨_, h⟩ => by cases h)
  | Value.other _ _ _ => isFalse (fun ⟨_, h⟩ => by cases h)

/-- The intrinsics required for the source `YARP`: `width` and `height` present as int32,
`fx`, `fy`, `cx` and `cy` present as float64. -/
def ValidIntrinsics (camera_bottle : Bottle) : Prop :=
  IsInt32 (camera_bottle.find "width") ∧ IsInt32 (camera_bottle.find "height") ∧
  IsFloat64 (camera_bottle.find "fx") ∧ IsFloat64 (camera_bottle.find "fy") ∧
  IsFloat64 (camera_bottle.find "cx") ∧ IsFloat64 (camera_bottle.find "cy")

instance (camera_bottle : Bottle) : Decidable (ValidIntrinsics camera_bottle) := by
  unfold ValidIntrinsics; infer_instance

/-- The message of the error a construction ended with, if it ended with one. -/
def Construction.error? (c : Construction) : Option String :=
  match c.result with
  | Except.error what => some what
  | Except.ok _ => none

/-! ## Example configurations -/

/-- A complete section for the source `YARP`. -/
def yarp_section : Bottle :=
  ⟨[("source", Value.string "YARP"), ("width", Value.int32 640), ("height", Value.int32 480),
    ("fx", Value.float64 (Float64.finite 600)), ("fy", Value.float64 (Float64.finite 601)),
    ("cx", Value.float64 (Float64.finite 320)), ("cy", Value.float64 (Float64.finite 240))]⟩

/-- A complete configuration for the source `YARP` with a given top-level `fps` value. -/
def yarp_config (fps : Value) : ResourceFinder :=
  ⟨[("fps", fps)], [("CAMERA", yarp_section)]⟩

/-- A configuration without a section `CAMERA`: `fps` is zero, intrinsics sit at top level
and another section is present. -/
def no_camera_config : ResourceFinder :=
  ⟨[("fps", Value.float64 (Float64.finite 0)), ("width", Value.int32 640)],
   [("LOG", ⟨[("source", Value.string "YARP")]⟩)]⟩

/-- The complete `YARP` section with `fx` given as the integer 600. -/
def integer_fx_section : Bottle :=
  ⟨[("source", Value.string "YARP"), ("width", Value.int32 640), ("height", Value.int32 480),
    ("fx", Value.int32 600), ("fy", Value.float64 (Float64.finite 601)),
    ("cx", Value.float64 (Float64.finite 320)), ("cy", Value.float64 (Float64.finite 240))]⟩

/-- The complete section with the source spelled in lower case. -/
def lowercase_source_section : Bottle :=
  ⟨[("source", Value.string "yarp"), ("width", Value.int32 640), ("height", Value.int32 480),
    ("fx", Value.float64 (Float64.finite 600)), ("fy", Value.float64 (Float64.finite 601)),
    ("cx", Value.float64 (Float64.finite 320)), ("cy", Value.float64 (Float64.finite 240))]⟩

/-- A section for the source `RealsenseCamera` with no `height`, a string for `width` and
an integer for `fx`. -/
def realsense_section : Bottle :=
  ⟨[("source", Value.string "RealsenseCamera"), ("width", Value.string "wide"),
    ("fx", Value.int32 600), ("far_plane", Value.float64 (Float64.finite 2))]⟩

/-- The period the container of a successful construction was created with. -/
def Construction.period? (c : Construction) : Option Float64 :=
  match c.result with
  | Except.ok v => some v.vtk_container_.period
  | Except.error _ => none

/-- A section without the key `source` and with `cx` missing. -/
def sourceless_section : Bottle :=
  ⟨[("width", Value.int32 640), ("height", Value.int32 480),
    ("fx", Value.float64 (Float64.finite 600)), ("fy", Value.float64 (Float64.finite 601)),
    ("cy", Value.float64 (Float64.finite 240))]⟩

/-- A section with an unrecognized source and no valid intrinsics. -/
def unsupported_and_invalid_section : Bottle :=
  ⟨[("source", Value.string "Kinect"), ("width", Value.float64 (Float64.finite 640)),
    ("fx", Value.int32 600)]⟩

/-! ## Lemmas on the branches of the constructor -/

theorem not_isNull_and_isInt32 (v : Value) :
    (!v.isNull && v.isInt32) = true ↔ IsInt32 v := by
  cases v <;> simp [Value.isNull, Value.isInt32, IsInt32]

theorem not_isNull_and_isFloat64 (v : Value) :
    (!v.isNull && v.isFloat64) = true ↔ IsFloat64 v := by
  cases v <;> simp [Value.isNull, Value.isFloat64, IsFloat64]

theorem valid_camera_values_iff (b : Bottle) :
    valid_camera_values b = true ↔ ValidIntrinsics b := by
  unfold valid_camera_values ValidIntrinsics
  simp only [← not_isNull_and_isInt32, ← not_isNull_and_isFloat64, Bool.and_eq_true, and_assoc]

theorem ctor_missing (log_name_ : String) (rf : ResourceFinder)
    (h : rf.findGroup "CAMERA" = none) :
    Viewer.ctor log_name_ rf = ⟨[], Except.error (missing_camera_message log_name_)⟩ := by
  simp only [Viewer.ctor, h, missing_camera_message]

theorem ctor_yarp_invalid (log_name_ : String) (rf : ResourceFinder) (b : Bottle)
    (h : rf.findGroup "CAMERA" = some b) (hs : camera_source b = "YARP")
    (hv : valid_camera_values b = false) :
    Viewer.ctor log_name_ rf = ⟨[], Except.error (invalid_parameters_message log_name_)⟩ := by
  unfold camera_source at hs
  unfold valid_camera_values at hv
  simp only [Viewer.ctor, h, hs, hv, invalid_parameters_message]
  simp

theorem ctor_yarp_valid (log_name_ : String) (rf : ResourceFinder) (b : Bottle)
    (h : rf.findGroup "CAMERA" = some b) (hs : camera_source b = "YARP")
    (hv : valid_camera_values b = true) :
    Viewer.ctor log_name_ rf = assembled rf b (yarp_camera b) := by
  unfold camera_source at hs
  unfold valid_camera_values at hv
  simp only [Viewer.ctor, h, hs, hv, assembled, yarp_camera, point_cloud, new_container, fps,
    far_plane, subsampling_radius]
  simp

theorem ctor_realsense (log_name_ : String) (rf : ResourceFinder) (b : Bottle)
    (h : rf.findGroup "CAMERA" = some b) (hs : camera_source b = "RealsenseCamera") :
    Viewer.ctor log_name_ rf
      = assembled rf b (Camera.RealsenseCameraYarp "robots-viz-viewer") := by
  unfold camera_source at hs
  simp only [Viewer.ctor, h, hs, assembled, point_cloud, new_container, fps,
    far_plane, subsampling_radius]
  simp

theorem ctor_unsupported (log_name_ : String) (rf : ResourceFinder) (b : Bottle)
    (h : rf.findGroup "CAMERA" = some b) (h1 : camera_source b ≠ "YARP")
    (h2 : camera_source b ≠ "RealsenseCamera") :
    Viewer.ctor log_name_ rf
      = ⟨[], Except.error (unsupported_camera_message log_name_ (camera_source b))⟩ := by
  unfold camera_source at h1 h2 ⊢
  simp only [Viewer.ctor, h, unsupported_camera_message]
  simp [h1, h2]

theorem valid_camera_values_eq_false_iff (b : Bottle) :
    valid_camera_values b = false ↔ ¬ ValidIntrinsics b := by
  rw [← valid_camera_values_iff, Bool.not_eq_true]

/-- The four ways the constructor can go once the section `CAMERA` is there. -/
theorem ctor_some_cases (log_name_ : String) (rf : ResourceFinder) (b : Bottle)
    (h : rf.findGroup "CAMERA" = some b) :
    (camera_source b = "YARP" ∧ ¬ ValidIntrinsics b ∧
      Viewer.ctor log_name_ rf = ⟨[], Except.error (invalid_parameters_message log_name_)⟩) ∨
    (camera_source b = "YARP" ∧ ValidIntrinsics b ∧
      Viewer.ctor log_name_ rf = assembled rf b (yarp_camera b)) ∨
    (camera_source b = "RealsenseCamera" ∧
      Viewer.ctor log_name_ rf
        = assembled rf b (Camera.RealsenseCameraYarp "robots-viz-viewer")) ∨
    (camera_source b ≠ "YARP" ∧ camera_source b ≠ "RealsenseCamera" ∧
      Viewer.ctor log_name_ rf
        = ⟨[], Except.error (unsupported_camera_message log_name_ (camera_source b))⟩) := by
  by_cases hs : camera_source b = "YARP"
  · by_cases hv : ValidIntrinsics b
    · exact Or.inr (Or.inl ⟨hs, hv,
        ctor_yarp_valid log_name_ rf b h hs ((valid_camera_values_iff b).2 hv)⟩)
    · exact Or.inl ⟨hs, hv,
        ctor_yarp_invalid log_name_ rf b h hs ((valid_camera_values_eq_false_iff b).2 hv)⟩
  · by_cases hr : camera_source b = "RealsenseCamera"
    · exact Or.inr (Or.inr (Or.inl ⟨hr, ctor_realsense log_name_ rf b h hr⟩))
    · exact Or.inr (Or.inr (Or.inr ⟨hs, hr, ctor_unsupported log_name_ rf b h hs hr⟩))

/-- A construction that succeeds went through lines 74-82 with one of the two cameras. -/
theorem ctor_ok_cases (log_name_ : String) (rf : ResourceFinder) (v : Viewer)
    (hok : (Viewer.ctor log_name_ rf).result = Except.ok v) :
    ∃ b camera, rf.findGroup "CAMERA" = some b ∧
      Viewer.ctor log_name_ rf = assembled rf b camera ∧
      ((camera_source b = "YARP" ∧ ValidIntrinsics b ∧ camera = yarp_camera b) ∨
       (camera_source b = "RealsenseCamera" ∧
         camera = Camera.RealsenseCameraYarp "robots-viz-viewer")) := by
  cases h : rf.findGroup "CAMERA" with
  | none =>
    rw [ctor_missing log_name_ rf h] at hok
    cases hok
  | some b =>
    rcases ctor_some_cases log_name_ rf b h with
      ⟨_, _, e⟩ | ⟨hs, hv, e⟩ | ⟨hr, e⟩ | ⟨_, _, e⟩
    · rw [e] at hok; cases hok
    · exact ⟨b, _, rfl, e, Or.inl ⟨hs, hv, rfl⟩⟩
    · exact ⟨b, _, rfl, e, Or.inr ⟨hr, rfl⟩⟩
    · rw [e] at hok; cases hok

theorem lookup_cons_of_ne {β : Type} (key k : String) (v : β) (l : List (String × β))
    (h : key ≠ k) : List.lookup key ((k, v) :: l) = List.lookup key l := by
  have hk : (key == k) = false := by simpa using h
  simp [List.lookup, hk]

theorem append_left_ne (p s t : String) (h : s ≠ t) : p ++ s ≠ p ++ t := by
  intro e
  apply h
  have e2 := congrArg String.data e
  simp only [String.data_append] at e2
  exact String.ext (List.append_cancel_left e2)

theorem unsupported_ne_invalid (log_name_ src : String) :
    unsupported_camera_message log_name_ src ≠ invalid_parameters_message log_name_ := by
  unfold unsupported_camera_message invalid_parameters_message
  intro e
  have e2 := congrArg (fun s => (String.data s).reverse.take 4) e
  simp only [String.data_append, List.reverse_append] at e2
  have h1 : (" is not supported." : String).data.reverse
      = ['.', 'd', 'e', 't', 'r', 'o', 'p', 'p', 'u', 's', ' ', 't', 'o', 'n', ' ', 's', 'i',
          ' '] := by decide
  rw [h1] at e2
  simp [List.take_append_eq_append_take] at e2

theorem missing_ne_invalid (log_name_ : String) :
    missing_camera_message log_name_ ≠ invalid_parameters_message log_name_ := by
  unfold missing_camera_message invalid_parameters_message
  apply append_left_ne
  decide

/-! ## Configuration errors -/

/-- C1: when the section `CAMERA` is absent (`findGroup("CAMERA")` is null) the constructor
throws the missing-section runtime error, whatever `fps` and every other key hold, and it
has made no library call: no camera, point cloud or container is created. -/
theorem missing_camera_section_throws (log_name_ : String) (rf : ResourceFinder)
    (h : rf.findGroup "CAMERA" = none) :
    (Viewer.ctor log_name_ rf).result
        = Except.error
            (log_name_ ++ "::ctor. Malformed configuration file: cannot find CAMERA section.")
      ∧ (Viewer.ctor log_name_ rf).calls = [] := by
  rw [ctor_missing log_name_ rf h]
  exact ⟨rfl, rfl⟩

theorem missing_camera_section_throws_witness :
    no_camera_config.findGroup "CAMERA" = none ∧
    (Viewer.ctor "Viewer" no_camera_config).result
        = Except.error
            ("Viewer" ++ "::ctor. Malformed configuration file: cannot find CAMERA section.")
      ∧ (Viewer.ctor "Viewer" no_camera_config).calls = [] :=
  ⟨by decide, missing_camera_section_throws "Viewer" no_camera_config (by decide)⟩

/-- C2: with a section `CAMERA` whose source is `YARP`, if any one of `width`, `height`
(required int32) or `fx`, `fy`, `cx`, `cy` (required float64) is missing or of another type,
the constructor throws the invalid-parameters runtime error and makes no library call; one
bad field is enough, whatever the other five hold. -/
theorem yarp_bad_intrinsic_throws (log_name_ : String) (rf : ResourceFinder) (b : Bottle)
    (hb : rf.findGroup "CAMERA" = some b) (hs : camera_source b = "YARP")
    (hbad : ¬ IsInt32 (b.find "width") ∨ ¬ IsInt32 (b.find "height") ∨
            ¬ IsFloat64 (b.find "fx") ∨ ¬ IsFloat64 (b.find "fy") ∨
            ¬ IsFloat64 (b.find "cx") ∨ ¬ IsFloat64 (b.find "cy")) :
    (Viewer.ctor log_name_ rf).result
        = Except.error (log_name_ ++ "::ctor. Camera parameters from configuration are invalid.")
      ∧ (Viewer.ctor log_name_ rf).calls = [] := by
  have hv : ¬ ValidIntrinsics b := by
    rintro ⟨h1, h2, h3, h4, h5, h6⟩
    rcases hbad with h | h | h | h | h | h
    · exact h h1
    · exact h h2
    · exact h h3
    · exact h h4
    · exact h h5
    · exact h h6
  rw [ctor_yarp_invalid log_name_ rf b hb hs ((valid_camera_values_eq_false_iff b).2 hv)]
  exact ⟨rfl, rfl⟩

theorem yarp_bad_intrinsic_throws_witness :
    (Viewer.ctor "Viewer" ⟨[], [("CAMERA", integer_fx_section)]⟩).result
        = Except.error ("Viewer" ++ "::ctor. Camera parameters from configuration are invalid.")
      ∧ (Viewer.ctor "Viewer" ⟨[], [("CAMERA", integer_fx_section)]⟩).calls = [] :=
  yarp_bad_intrinsic_throws "Viewer" ⟨[], [("CAMERA", integer_fx_section)]⟩ integer_fx_section
    (by decide) (by decide) (Or.inr (Or.inr (Or.inl (by decide))))

/-- C3: with a section `CAMERA` whose source string is neither exactly `YARP` nor exactly
`RealsenseCamera`, the constructor throws the runtime error
`<log_name_>::ctor. Camera <source> is not supported.`, whose message contains that source
string, whether or not the intrinsics are valid, and makes no library call. -/
theorem unsupported_source_throws (log_name_ : String) (rf : ResourceFinder) (b : Bottle)
    (hb : rf.findGroup "CAMERA" = some b) (h1 : camera_source b ≠ "YARP")
    (h2 : camera_source b ≠ "RealsenseCamera") :
    (Viewer.ctor log_name_ rf).result
        = Except.error (log_name_ ++ "::ctor. Camera " ++ camera_source b ++ " is not supported.")
      ∧ (Viewer.ctor log_name_ rf).calls = []
      ∧ ∃ what before after, (Viewer.ctor log_name_ rf).result = Except.error what
          ∧ what = before ++ camera_source b ++ after := by
  rw [ctor_unsupported log_name_ rf b hb h1 h2]
  exact ⟨rfl, rfl, _, log_name_ ++ "::ctor. Camera ", " is not supported.", rfl, rfl⟩

theorem unsupported_source_throws_witness :
    camera_source lowercase_source_section = "yarp" ∧ ValidIntrinsics lowercase_source_section ∧
    (Viewer.ctor "Viewer" ⟨[], [("CAMERA", lowercase_source_section)]⟩).result
        = Except.error ("Viewer" ++ "::ctor. Camera " ++ camera_source lowercase_source_section
            ++ " is not supported.")
      ∧ (Viewer.ctor "Viewer" ⟨[], [("CAMERA", lowercase_source_section)]⟩).calls = []
      ∧ ∃ what before after,
          (Viewer.ctor "Viewer" ⟨[], [("CAMERA", lowercase_source_section)]⟩).result
            = Except.error what
          ∧ what = before ++ camera_source lowercase_source_section ++ after :=
  ⟨by decide, by decide,
    unsupported_source_throws "Viewer" ⟨[], [("CAMERA", lowercase_source_section)]⟩
      lowercase_source_section (by decide) (by decide) (by decide)⟩

/-- C4: the constructor throws if and only if the section `CAMERA` is missing, or the source
is `YARP` with invalid intrinsics, or the source is unrecognized; and whenever the source is
`YARP` with all six intrinsics present and well typed, or the source is `RealsenseCamera`
(whatever the intrinsics), it throws nothing and builds the camera, the point cloud and the
container, in that order, and adds the point cloud to the container. -/
theorem throws_iff_one_of_three_conditions (log_name_ : String) (rf : ResourceFinder) :
    ((∃ what, (Viewer.ctor log_name_ rf).result = Except.error what) ↔
      (rf.findGroup "CAMERA" = none ∨
        ∃ b, rf.findGroup "CAMERA" = some b ∧
          ((camera_source b = "YARP" ∧ ¬ ValidIntrinsics b) ∨
           (camera_source b ≠ "YARP" ∧ camera_source b ≠ "RealsenseCamera")))) ∧
    (∀ b, rf.findGroup "CAMERA" = some b →
      ((camera_source b = "YARP" ∧ ValidIntrinsics b) ∨ camera_source b = "RealsenseCamera") →
      ∃ camera pc container v,
        (Viewer.ctor log_name_ rf).calls
          = [Call.newCamera camera, Call.newVtkPointCloud pc, Call.newVtkContainer container,
             Call.add_content "point_cloud" pc]
        ∧ (Viewer.ctor log_name_ rf).result = Except.ok v) := by
  refine ⟨⟨?_, ?_⟩, ?_⟩
  · rintro ⟨what, hw⟩
    cases h : rf.findGroup "CAMERA" with
    | none => exact Or.inl rfl
    | some b =>
      refine Or.inr ⟨b, rfl, ?_⟩
      rcases ctor_some_cases log_name_ rf b h with
        ⟨hs, hv, _⟩ | ⟨_, _, e⟩ | ⟨_, e⟩ | ⟨h1, h2, _⟩
      · exact Or.inl ⟨hs, hv⟩
      · rw [e] at hw; cases hw
      · rw [e] at hw; cases hw
      · exact Or.inr ⟨h1, h2⟩
  · rintro (h | ⟨b, h, ⟨hs, hv⟩ | ⟨h1, h2⟩⟩)
    · rw [ctor_missing log_name_ rf h]
      exact ⟨_, rfl⟩
    · rw [ctor_yarp_invalid log_name_ rf b h hs ((valid_camera_values_eq_false_iff b).2 hv)]
      exact ⟨_, rfl⟩
    · rw [ctor_unsupported log_name_ rf b h h1 h2]
      exact ⟨_, rfl⟩
  · rintro b h (⟨hs, hv⟩ | hr)
    · rw [ctor_yarp_valid log_name_ rf b h hs ((valid_camera_values_iff b).2 hv)]
      exact ⟨_, _, _, _, rfl, rfl⟩
    · rw [ctor_realsense log_name_ rf b h hr]
      exact ⟨_, _, _, _, rfl, rfl⟩

theorem throws_iff_one_of_three_conditions_witness :
    ¬ ValidIntrinsics realsense_section ∧
    ∃ camera pc container v,
      (Viewer.ctor "Viewer" ⟨[], [("CAMERA", realsense_section)]⟩).calls
        = [Call.newCamera camera, Call.newVtkPointCloud pc, Call.newVtkContainer container,
           Call.add_content "point_cloud" pc]
      ∧ (Viewer.ctor "Viewer" ⟨[], [("CAMERA", realsense_section)]⟩).result = Except.ok v :=
  ⟨by decide,
    (throws_iff_one_of_three_conditions "Viewer" ⟨[], [("CAMERA", realsense_section)]⟩).2
      realsense_section (by decide) (Or.inr (by decide))⟩

/-! ## The render period -/

/-- Whatever the configuration, a constructed viewer has period `1.0` when the configured
`fps` is non-zero and `+inf` when it is zero: line 25 stores `fps` in a `bool`. -/
theorem period_is_one_or_infinite (log_name_ : String) (rf : ResourceFinder) (v : Viewer)
    (hok : (Viewer.ctor log_name_ rf).result = Except.ok v) :
    v.vtk_container_.period = if fps rf = true then Float64.finite 1 else Float64.posInf := by
  obtain ⟨b, camera, _, e, _⟩ := ctor_ok_cases log_name_ rf v hok
  rw [e] at hok
  simp only [assembled, Except.ok.injEq] at hok
  subst hok
  cases hf : fps rf <;>
    simp [VtkContainer.add_content, new_container, hf, Float64.ofBool, Float64.div]

/-- C5 (the code departs from the claim): with `fps` configured as 60.0 the container is
built with period `1.0`, not `1/60`; with `fps` 30.0, and with `fps` absent, the period is
`1.0` as well, so configurations that differ only in a non-zero `fps` get the same period. -/
theorem fps_is_reduced_to_a_bool :
    (Viewer.ctor "Viewer" (yarp_config (Value.float64 (Float64.finite 60)))).period?
        = some (Float64.finite 1)
      ∧ Float64.div (Float64.finite 1) (Float64.finite 60) = Float64.finite (1 / 60)
      ∧ Float64.finite 1 ≠ Float64.finite (1 / 60)
      ∧ (Viewer.ctor "Viewer" (yarp_config (Value.float64 (Float64.finite 30)))).period?
        = some (Float64.finite 1)
      ∧ (Viewer.ctor "Viewer" ⟨[], [("CAMERA", yarp_section)]⟩).period?
        = some (Float64.finite 1) := by
  have h60 : fps (yarp_config (Value.float64 (Float64.finite 60))) = true := by
    simp [fps, yarp_config, ResourceFinder.check, List.lookup, Value.asFloat64, Float64.toBool]
  have h30 : fps (yarp_config (Value.float64 (Float64.finite 30))) = true := by
    simp [fps, yarp_config, ResourceFinder.check, List.lookup, Value.asFloat64, Float64.toBool]
  have h0 : fps ⟨[], [("CAMERA", yarp_section)]⟩ = true := by
    simp [fps, ResourceFinder.check, List.lookup, Value.asFloat64, Float64.toBool]
  refine ⟨?_, ?_, ?_, ?_, ?_⟩
  · rw [ctor_yarp_valid "Viewer" _ yarp_section (by decide) (by decide) (by decide)]
    simp [Construction.period?, assembled, VtkContainer.add_content, new_container, h60,
      Float64.ofBool, Float64.div]
  · simp [Float64.div]
  · simp
  · rw [ctor_yarp_valid "Viewer" _ yarp_section (by decide) (by decide) (by decide)]
    simp [Construction.period?, assembled, VtkContainer.add_content, new_container, h30,
      Float64.ofBool, Float64.div]
  · rw [ctor_yarp_valid "Viewer" _ yarp_section (by decide) (by decide) (by decide)]
    simp [Construction.period?, assembled, VtkContainer.add_content, new_container, h0,
      Float64.ofBool, Float64.div]

/-! ## Defaults and forwarded values -/

/-- C6: the key `source` defaults to `YARP`: when the section `CAMERA` has no key `source`,
the constructor does exactly what it does (same library calls, same viewer or same error)
for the same configuration with `source` set to the string `YARP`; in particular, without
valid intrinsics it throws the invalid-parameters error. -/
theorem source_defaults_to_yarp (log_name_ : String) (rf rf2 : ResourceFinder) (b b2 : Bottle)
    (hb : rf.findGroup "CAMERA" = some b) (hno : b.pairs.lookup "source" = none)
    (hpairs : rf2.pairs = rf.pairs) (hb2 : rf2.findGroup "CAMERA" = some b2)
    (hsrc : b2.pairs.lookup "source" = some (Value.string "YARP"))
    (hsame : ∀ key, key ≠ "source" → b2.pairs.lookup key = b.pairs.lookup key) :
    Viewer.ctor log_name_ rf = Viewer.ctor log_name_ rf2
      ∧ (¬ ValidIntrinsics b →
          (Viewer.ctor log_name_ rf).result
            = Except.error
                (log_name_ ++ "::ctor. Camera parameters from configuration are invalid.")) := by
  have hs : camera_source b = "YARP" := by
    simp [camera_source, Bottle.check, hno, Value.asString]
  constructor
  · simp only [Viewer.ctor, hb, hb2, Bottle.check, Bottle.find, ResourceFinder.check, hno, hsrc,
      hpairs, hsame "width" (by decide), hsame "height" (by decide), hsame "fx" (by decide),
      hsame "fy" (by decide), hsame "cx" (by decide), hsame "cy" (by decide),
      hsame "far_plane" (by decide), hsame "subsampling_radius" (by decide)]
  · intro hv
    rw [ctor_yarp_invalid log_name_ rf b hb hs ((valid_camera_values_eq_false_iff b).2 hv)]
    rfl

theorem source_defaults_to_yarp_witness :
    Viewer.ctor "Viewer" ⟨[], [("CAMERA", sourceless_section)]⟩
        = Viewer.ctor "Viewer"
            ⟨[],
              [("CAMERA", ⟨("source", Value.string "YARP") :: sourceless_section.pairs⟩)]⟩
      ∧ (¬ ValidIntrinsics sourceless_section →
          (Viewer.ctor "Viewer" ⟨[], [("CAMERA", sourceless_section)]⟩).result
            = Except.error
                ("Viewer" ++ "::ctor. Camera parameters from configuration are invalid.")) :=
  source_defaults_to_yarp "Viewer" ⟨[], [("CAMERA", sourceless_section)]⟩
    ⟨[], [("CAMERA", ⟨("source", Value.string "YARP") :: sourceless_section.pairs⟩)]⟩
    sourceless_section ⟨("source", Value.string "YARP") :: sourceless_section.pairs⟩
    (by decide) (by decide) rfl (by decide) (by decide)
    (fun key hk => lookup_cons_of_ne key "source" _ _ hk)

/-- C7: for every configuration that passes validation, whichever camera is selected, the
point cloud is built as `VtkPointCloud(camera, far_plane, subsampling_radius)` where
`far_plane` is the value of the key `far_plane` of the section `CAMERA` read as a float64,
or 10.0 when the key is absent, and `subsampling_radius` is the value of the key
`subsampling_radius` of that section read as a float64, or -1 (a negative number) when the
key is absent. -/
theorem point_cloud_parameters (log_name_ : String) (rf : ResourceFinder) (v : Viewer)
    (hok : (Viewer.ctor log_name_ rf).result = Except.ok v) :
    ∃ b camera container,
      rf.findGroup "CAMERA" = some b ∧
      (Viewer.ctor log_name_ rf).calls
        = [Call.newCamera camera,
           Call.newVtkPointCloud
             ⟨camera,
              (match b.pairs.lookup "far_plane" with
                | some x => x.asFloat64
                | none => Float64.finite 10),
              (match b.pairs.lookup "subsampling_radius" with
                | some x => x.asFloat64
                | none => Float64.finite (-1))⟩,
           Call.newVtkContainer container,
           Call.add_content "point_cloud"
             ⟨camera,
              (match b.pairs.lookup "far_plane" with
                | some x => x.asFloat64
                | none => Float64.finite 10),
              (match b.pairs.lookup "subsampling_radius" with
                | some x => x.asFloat64
                | none => Float64.finite (-1))⟩] ∧
      (-1 : ℚ) < 0 := by
  obtain ⟨b, camera, h, e, _⟩ := ctor_ok_cases log_name_ rf v hok
  refine ⟨b, camera, new_container rf, h, ?_, by norm_num⟩
  rw [e]
  simp only [assembled, point_cloud, far_plane, subsampling_radius, Bottle.check]
  cases b.pairs.lookup "far_plane" <;> cases b.pairs.lookup "subsampling_radius" <;>
    simp [Value.asFloat64, Float64.ofInt32]

theorem point_cloud_parameters_witness :
    ∃ b camera container,
      ResourceFinder.findGroup ⟨[], [("CAMERA", realsense_section)]⟩ "CAMERA" = some b ∧
      (Viewer.ctor "Viewer" ⟨[], [("CAMERA", realsense_section)]⟩).calls
        = [Call.newCamera camera,
           Call.newVtkPointCloud
             ⟨camera,
              (match b.pairs.lookup "far_plane" with
                | some x => x.asFloat64
                | none => Float64.finite 10),
              (match b.pairs.lookup "subsampling_radius" with
                | some x => x.asFloat64
                | none => Float64.finite (-1))⟩,
           Call.newVtkContainer container,
           Call.add_content "point_cloud"
             ⟨camera,
              (match b.pairs.lookup "far_plane" with
                | some x => x.asFloat64
                | none => Float64.finite 10),
              (match b.pairs.lookup "subsampling_radius" with
                | some x => x.asFloat64
                | none => Float64.finite (-1))⟩] ∧
      (-1 : ℚ) < 0 :=
  point_cloud_parameters "Viewer" ⟨[], [("CAMERA", realsense_section)]⟩
    ⟨⟨Float64.finite 1, 600, 600, false,
      [("point_cloud",
        ⟨Camera.RealsenseCameraYarp "robots-viz-viewer", Float64.finite 2,
          Float64.finite (-1)⟩)]⟩⟩
    (by simp [Viewer.ctor, realsense_section, ResourceFinder.check, ResourceFinder.findGroup,
          Bottle.check, Bottle.find, List.lookup, Value.asString, Value.asFloat64, Value.isNull,
          Value.isInt32, Value.isFloat64, Float64.toBool, Float64.ofBool, Float64.ofInt32,
          Float64.div, VtkContainer.add_content])

/-- C8: for the source `YARP` with valid intrinsics the camera is created as
`YarpCamera(width, height, fx, cx, fy, cy, "robots-viz-viewer", true)`, each argument being
the value of the key of the same name; for the source `RealsenseCamera` the camera is created
as `RealsenseCameraYarp("robots-viz-viewer")`, whatever the intrinsics. -/
theorem camera_arguments (log_name_ : String) (rf : ResourceFinder) (b : Bottle)
    (hb : rf.findGroup "CAMERA" = some b) :
    (∀ (width height : Int) (fx fy cx cy : Float64),
      camera_source b = "YARP" →
      b.find "width" = Value.int32 width → b.find "height" = Value.int32 height →
      b.find "fx" = Value.float64 fx → b.find "fy" = Value.float64 fy →
      b.find "cx" = Value.float64 cx → b.find "cy" = Value.float64 cy →
      ∃ pc container v,
        (Viewer.ctor log_name_ rf).calls
          = [Call.newCamera
               (Camera.YarpCamera width height fx cx fy cy "robots-viz-viewer" true),
             Call.newVtkPointCloud pc, Call.newVtkContainer container,
             Call.add_content "point_cloud" pc]
        ∧ pc.camera = Camera.YarpCamera width height fx cx fy cy "robots-viz-viewer" true
        ∧ (Viewer.ctor log_name_ rf).result = Except.ok v) ∧
    (camera_source b = "RealsenseCamera" →
      ∃ pc container v,
        (Viewer.ctor log_name_ rf).calls
          = [Call.newCamera (Camera.RealsenseCameraYarp "robots-viz-viewer"),
             Call.newVtkPointCloud pc, Call.newVtkContainer container,
             Call.add_content "point_cloud" pc]
        ∧ pc.camera = Camera.RealsenseCameraYarp "robots-viz-viewer"
        ∧ (Viewer.ctor log_name_ rf).result = Except.ok v) := by
  constructor
  · intro width height fx fy cx cy hs hw hh hfx hfy hcx hcy
    have hv : ValidIntrinsics b :=
      ⟨⟨_, hw⟩, ⟨_, hh⟩, ⟨_, hfx⟩, ⟨_, hfy⟩, ⟨_, hcx⟩, ⟨_, hcy⟩⟩
    rw [ctor_yarp_valid log_name_ rf b hb hs ((valid_camera_values_iff b).2 hv)]
    refine ⟨point_cloud b (yarp_camera b), new_container rf, _, ?_, ?_, rfl⟩
    · simp [assembled, yarp_camera, hw, hh, hfx, hfy, hcx, hcy, Value.asInt32,
        Value.asFloat64]
    · simp [point_cloud, yarp_camera, hw, hh, hfx, hfy, hcx, hcy, Value.asInt32,
        Value.asFloat64]
  · intro hr
    rw [ctor_realsense log_name_ rf b hb hr]
    exact ⟨point_cloud b _, new_container rf, _, rfl, rfl, rfl⟩

theorem camera_arguments_witness :
    (∃ pc container v,
        (Viewer.ctor "Viewer" ⟨[], [("CAMERA", yarp_section)]⟩).calls
          = [Call.newCamera
               (Camera.YarpCamera 640 480 (Float64.finite 600) (Float64.finite 320)
                 (Float64.finite 601) (Float64.finite 240) "robots-viz-viewer" true),
             Call.newVtkPointCloud pc, Call.newVtkContainer container,
             Call.add_content "point_cloud" pc]
        ∧ pc.camera = Camera.YarpCamera 640 480 (Float64.finite 600) (Float64.finite 320)
                 (Float64.finite 601) (Float64.finite 240) "robots-viz-viewer" true
        ∧ (Viewer.ctor "Viewer" ⟨[], [("CAMERA", yarp_section)]⟩).result = Except.ok v) :=
  (camera_arguments "Viewer" ⟨[], [("CAMERA", yarp_section)]⟩ yarp_section (by decide)).1
    640 480 (Float64.finite 600) (Float64.finite 601) (Float64.finite 320) (Float64.finite 240)
    (by decide) (by decide) (by decide) (by decide) (by decide) (by decide) (by decide)

/-- C9: for every configuration that passes validation, the constructed viewer owns one
container, created with a 600 by 600 window, to which exactly one content has been added:
the point cloud built from the selected camera, under the name `point_cloud`; and `run()`
makes one library call, `run()` of that container. -/
theorem viewer_owns_container_with_point_cloud (log_name_ : String) (rf : ResourceFinder)
    (v : Viewer) (hok : (Viewer.ctor log_name_ rf).result = Except.ok v) :
    ∃ camera pc period,
      (Viewer.ctor log_name_ rf).calls
        = [Call.newCamera camera, Call.newVtkPointCloud pc,
           Call.newVtkContainer ⟨period, 600, 600, false, []⟩,
           Call.add_content "point_cloud" pc]
      ∧ pc.camera = camera
      ∧ v.vtk_container_ = ⟨period, 600, 600, false, [("point_cloud", pc)]⟩
      ∧ Viewer.run v = [Call.run ⟨period, 600, 600, false, [("point_cloud", pc)]⟩] := by
  obtain ⟨b, camera, _, e, _⟩ := ctor_ok_cases log_name_ rf v hok
  rw [e] at hok ⊢
  simp only [assembled, Except.ok.injEq] at hok
  subst hok
  exact ⟨camera, point_cloud b camera, (new_container rf).period, rfl, rfl, rfl, rfl⟩

theorem viewer_owns_container_with_point_cloud_witness :
    ∃ camera pc period,
      (Viewer.ctor "Viewer" ⟨[], [("CAMERA", realsense_section)]⟩).calls
        = [Call.newCamera camera, Call.newVtkPointCloud pc,
           Call.newVtkContainer ⟨period, 600, 600, false, []⟩,
           Call.add_content "point_cloud" pc]
      ∧ pc.camera = camera
      ∧ (⟨⟨Float64.finite 1, 600, 600, false,
            [("point_cloud",
              ⟨Camera.RealsenseCameraYarp "robots-viz-viewer", Float64.finite 2,
                Float64.finite (-1)⟩)]⟩⟩ : Viewer).vtk_container_
          = ⟨period, 600, 600, false, [("point_cloud", pc)]⟩
      ∧ Viewer.run ⟨⟨Float64.finite 1, 600, 600, false,
            [("point_cloud",
              ⟨Camera.RealsenseCameraYarp "robots-viz-viewer", Float64.finite 2,
                Float64.finite (-1)⟩)]⟩⟩
          = [Call.run ⟨period, 600, 600, false, [("point_cloud", pc)]⟩] :=
  viewer_owns_container_with_point_cloud "Viewer" ⟨[], [("CAMERA", realsense_section)]⟩
    ⟨⟨Float64.finite 1, 600, 600, false,
      [("point_cloud",
        ⟨Camera.RealsenseCameraYarp "robots-viz-viewer", Float64.finite 2,
          Float64.finite (-1)⟩)]⟩⟩
    (by simp [Viewer.ctor, realsense_section, ResourceFinder.check, ResourceFinder.findGroup,
          Bottle.check, Bottle.find, List.lookup, Value.asString, Value.asFloat64, Value.isNull,
          Value.isInt32, Value.isFloat64, Float64.toBool, Float64.ofBool, Float64.ofInt32,
          Float64.div, VtkContainer.add_content])

/-! ## Precedence of the configuration errors -/

/-- C10: the configuration error follows a fixed precedence.  A missing section `CAMERA` is
reported whatever else is wrong; with the section there, an unrecognized source is reported
as unsupported, never as invalid parameters, whatever the intrinsics; the invalid-parameters
error is thrown exactly when the source is `YARP` and the intrinsics are invalid; and the
error (or its absence) is the same for any two configurations whose sections `CAMERA` agree
on `source` and the six intrinsics, so `fps`, `far_plane` and `subsampling_radius` never
cause or change an error. -/
theorem configuration_error_precedence (log_name_ : String) (rf : ResourceFinder) :
    (rf.findGroup "CAMERA" = none →
      (Viewer.ctor log_name_ rf).error? = some (missing_camera_message log_name_)) ∧
    (∀ b, rf.findGroup "CAMERA" = some b →
      camera_source b ≠ "YARP" → camera_source b ≠ "RealsenseCamera" →
      (Viewer.ctor log_name_ rf).error?
          = some (unsupported_camera_message log_name_ (camera_source b))
        ∧ (Viewer.ctor log_name_ rf).error? ≠ some (invalid_parameters_message log_name_)) ∧
    ((Viewer.ctor log_name_ rf).error? = some (invalid_parameters_message log_name_) ↔
      ∃ b, rf.findGroup "CAMERA" = some b ∧ camera_source b = "YARP"
        ∧ ¬ ValidIntrinsics b) ∧
    (∀ rf2 b b2, rf.findGroup "CAMERA" = some b → rf2.findGroup "CAMERA" = some b2 →
      (∀ key ∈ ["source", "width", "height", "fx", "fy", "cx", "cy"],
        b2.pairs.lookup key = b.pairs.lookup key) →
      (Viewer.ctor log_name_ rf2).error? = (Viewer.ctor log_name_ rf).error?) ∧
    (∀ rf2, rf.findGroup "CAMERA" = none → rf2.findGroup "CAMERA" = none →
      (Viewer.ctor log_name_ rf2).error? = (Viewer.ctor log_name_ rf).error?) := by
  refine ⟨?_, ?_, ⟨?_, ?_⟩, ?_, ?_⟩
  · intro h
    rw [ctor_missing log_name_ rf h]
    rfl
  · intro b hb h1 h2
    rw [ctor_unsupported log_name_ rf b hb h1 h2]
    refine ⟨rfl, ?_⟩
    intro e
    simp only [Construction.error?, Option.some.injEq] at e
    exact unsupported_ne_invalid log_name_ _ e
  · intro he
    cases h : rf.findGroup "CAMERA" with
    | none =>
      rw [ctor_missing log_name_ rf h] at he
      simp only [Construction.error?, Option.some.injEq] at he
      exact absurd he (missing_ne_invalid log_name_)
    | some b =>
      rcases ctor_some_cases log_name_ rf b h with
        ⟨hs, hv, _⟩ | ⟨_, _, e⟩ | ⟨_, e⟩ | ⟨_, _, e⟩
      · exact ⟨b, rfl, hs, hv⟩
      · rw [e] at he
        simp [Construction.error?, assembled] at he
      · rw [e] at he
        simp [Construction.error?, assembled] at he
      · rw [e] at he
        simp only [Construction.error?, Option.some.injEq] at he
        exact absurd he (unsupported_ne_invalid log_name_ _)
  · rintro ⟨b, hb, hs, hv⟩
    rw [ctor_yarp_invalid log_name_ rf b hb hs ((valid_camera_values_eq_false_iff b).2 hv)]
    rfl
  · intro rf2 b b2 hb hb2 hkeys
    have hsrc : camera_source b2 = camera_source b := by
      simp only [camera_source, Bottle.check, hkeys "source" (by simp)]
    have hval : ValidIntrinsics b2 ↔ ValidIntrinsics b := by
      simp only [ValidIntrinsics, Bottle.find, hkeys "width" (by simp),
        hkeys "height" (by simp), hkeys "fx" (by simp), hkeys "fy" (by simp),
        hkeys "cx" (by simp), hkeys "cy" (by simp)]
    rcases ctor_some_cases log_name_ rf b hb with
      ⟨hs, hv, e⟩ | ⟨hs, hv, e⟩ | ⟨hr, e⟩ | ⟨h1, h2, e⟩
    · rw [e, ctor_yarp_invalid log_name_ rf2 b2 hb2 (hsrc.trans hs)
        ((valid_camera_values_eq_false_iff b2).2 (fun h => hv (hval.1 h)))]
    · rw [e, ctor_yarp_valid log_name_ rf2 b2 hb2 (hsrc.trans hs)
        ((valid_camera_values_iff b2).2 (hval.2 hv))]
      rfl
    · rw [e, ctor_realsense log_name_ rf2 b2 hb2 (hsrc.trans hr)]
      rfl
    · rw [e, ctor_unsupported log_name_ rf2 b2 hb2 (hsrc ▸ h1) (hsrc ▸ h2), hsrc]
  · intro rf2 h h2
    rw [ctor_missing log_name_ rf h, ctor_missing log_name_ rf2 h2]

theorem configuration_error_precedence_witness :
    ¬ ValidIntrinsics unsupported_and_invalid_section ∧
    ((Viewer.ctor "Viewer" ⟨[], [("CAMERA", unsupported_and_invalid_section)]⟩).error?
          = some (unsupported_camera_message "Viewer"
              (camera_source unsupported_and_invalid_section))
        ∧ (Viewer.ctor "Viewer" ⟨[], [("CAMERA", unsupported_and_invalid_section)]⟩).error?
          ≠ some (invalid_parameters_message "Viewer")) :=
  ⟨by decide,
    (configuration_error_precedence "Viewer"
      ⟨[], [("CAMERA", unsupported_and_invalid_section)]⟩).2.1
      unsupported_and_invalid_section (by decide) (by decide) (by decide)⟩

end RobotsViz
